import Mathlib

unseal Rat.mul Rat.add Rat.sub Rat.inv

/-!
Verification of the LogisticsBot onboard control stack (shallow embedding).

Python integers are modelled as `Int`, Python floats as `Rat` — exactly
where the float arithmetic of the modelled path is exact at the inputs
considered, and through an explicit binary64 rounding model
(`float64_add`) where accumulation error is observable, as in the
recovery scan timer — and Python strings as `String`.  Stateful classes
become Lean structures with explicit state passing; the bytes written to
the serial port are returned as an explicit transmission log.
-/

/-- Python `int(x)` on a float: truncation toward zero. -/
def pyInt (q : ℚ) : ℤ := if 0 ≤ q then ⌊q⌋ else ⌈q⌉

/-- Python `max(lo, min(hi, x))`, the clamping idiom used throughout the code. -/
def clampInt (lo hi x : ℤ) : ℤ := max lo (min hi x)

/-- Bit length of a natural number, by fuelled halving (the fuel far exceeds
any magnitude the models produce). -/
def bitLenAux : ℕ → ℕ → ℕ
  | 0, _ => 0
  | f+1, n => if n = 0 then 0 else bitLenAux f (n / 2) + 1

/-- Bit length of a natural number: 0 for 0, otherwise one more than the
floor base-2 logarithm. -/
def bitLen (n : ℕ) : ℕ := bitLenAux 4096 n

/-- Whether `2 ^ k ≤ n / d`, computed over naturals. -/
def le2pow (k : ℤ) (n d : ℕ) : Bool :=
  if 0 ≤ k then decide (2 ^ k.toNat * d ≤ n) else decide (d ≤ n * 2 ^ (-k).toNat)

/-- The floor base-2 logarithm of the positive rational `n / d`. -/
def floorLog2Pos (n d : ℕ) : ℤ :=
  let k0 : ℤ := (bitLen n : ℤ) - (bitLen d : ℤ)
  if le2pow k0 n d then k0 else k0 - 1

/-- Round the positive rational `n / d` to 53 significant bits, ties to even:
scale into `[2^52, 2^53)`, round the mantissa, and scale back. -/
def roundPos (n d : ℕ) : ℚ :=
  let e := floorLog2Pos n d
  let s : ℤ := 52 - e
  let sn := if 0 ≤ s then n * 2 ^ s.toNat else n
  let sd := if 0 ≤ s then d else d * 2 ^ (-s).toNat
  let m0 := sn / sd
  let r := sn % sd
  let m := if 2 * r < sd then m0
           else if sd < 2 * r then m0 + 1
           else if m0 % 2 = 0 then m0 else m0 + 1
  if 52 ≤ e then ((m * 2 ^ (e - 52).toNat : ℕ) : ℚ)
  else (m : ℚ) / ((2 ^ (52 - e).toNat : ℕ) : ℚ)

/-- IEEE-754 binary64 round-to-nearest-even of a rational value in the
normal range (overflow and subnormals do not arise at the magnitudes the
controllers use).  Python floats are binary64. -/
def float64_round (q : ℚ) : ℚ :=
  if q = 0 then 0
  else if 0 < q then roundPos q.num.natAbs q.den
  else -(roundPos q.num.natAbs q.den)

/-- Binary64 addition: the exact sum, rounded.  This is what a Python
`a + b` (or `a += b`) computes on floats. -/
def float64_add (a b : ℚ) : ℚ := float64_round (a + b)

/-- The binary64 value of the Python literal `0.05`, which is not exactly
representable: `3602879701896397 / 2^56`. -/
def float005 : ℚ := (3602879701896397 : ℚ) / 72057594037927936

/-- A single-line JSON command written to the Arduino serial link
(`{'cmd':'MOVE',...}` or `{'cmd':'STOP'}`). -/
inductive SerialCmd where
  | move (left right : ℤ)
  | haltCmd
deriving DecidableEq, Repr

namespace ArduinoDriver

/-- Observable state of `ArduinoDriver` (src/drivers/motor/arduino_driver.py):
the connection flag and the stored speeds returned by `get_speeds`. -/
structure State where
  connected : Bool
  left_speed : ℤ
  right_speed : ℤ
deriving DecidableEq, Repr

/-- `ArduinoDriver.send_command` with `wait_response=False`: when not connected
it logs a warning and returns None, writing nothing to the serial port;
when connected the JSON command is written.  The result is the transmission
log of the call. -/
def send_command (s : State) (c : SerialCmd) : List SerialCmd :=
  if s.connected then [c] else []

/-- `ArduinoDriver.set_motors`: clamp both speeds to [-255, 255], store them,
and send a MOVE command (without waiting for a response). -/
def set_motors (s : State) (left_speed right_speed : ℤ) : State × List SerialCmd :=
  let l := clampInt (-255) 255 left_speed
  let r := clampInt (-255) 255 right_speed
  let s1 : State := { s with left_speed := l, right_speed := r }
  (s1, send_command s1 (SerialCmd.move l r))

/-- `ArduinoDriver.forward`. -/
def forward (s : State) (speed : ℤ) : State × List SerialCmd :=
  set_motors s speed speed

/-- `ArduinoDriver.backward`. -/
def backward (s : State) (speed : ℤ) : State × List SerialCmd :=
  set_motors s (-speed) (-speed)

/-- `ArduinoDriver.turn_left`: left motor reverse, right motor forward. -/
def turn_left (s : State) (speed : ℤ) : State × List SerialCmd :=
  set_motors s (-speed) speed

/-- `ArduinoDriver.turn_right`. -/
def turn_right (s : State) (speed : ℤ) : State × List SerialCmd :=
  set_motors s speed (-speed)

/-- `ArduinoDriver.stop`: a zero-speed MOVE followed by a STOP command. -/
def stop (s : State) : State × List SerialCmd :=
  let (s1, t1) := set_motors s 0 0
  (s1, t1 ++ send_command s1 SerialCmd.haltCmd)

/-- `ArduinoDriver.get_speeds`. -/
def get_speeds (s : State) : ℤ × ℤ := (s.left_speed, s.right_speed)

end ArduinoDriver

namespace L298NDriver

/-- Observable state of `L298NDriver` (src/drivers/motor/l298n_driver.py):
the stored integer speeds returned by `get_speeds`, the normalized drive
values applied to the two gpiozero `Motor` objects, and the configured
per-motor reversal flags. -/
structure State where
  current_left_speed : ℤ
  current_right_speed : ℤ
  left_value : ℚ
  right_value : ℚ
  left_reverse : Bool
  right_reverse : Bool
deriving DecidableEq, Repr

/-- `L298NDriver._speed_to_value`: clamp to [-255, 255] then divide by 255. -/
def speed_to_value (speed : ℤ) : ℚ :=
  (clampInt (-255) 255 speed : ℚ) / 255

/-- `L298NDriver.set_left_motor`: apply the (possibly reversed) normalized
value to the motor and store the raw requested speed. -/
def set_left_motor (s : State) (speed : ℤ) : State :=
  let value := speed_to_value speed
  let value := if s.left_reverse then -value else value
  { s with left_value := value, current_left_speed := speed }

/-- `L298NDriver.set_right_motor`. -/
def set_right_motor (s : State) (speed : ℤ) : State :=
  let value := speed_to_value speed
  let value := if s.right_reverse then -value else value
  { s with right_value := value, current_right_speed := speed }

/-- `L298NDriver.set_motors`: set both motors. -/
def set_motors (s : State) (left_speed right_speed : ℤ) : State :=
  set_right_motor (set_left_motor s left_speed) right_speed

/-- `L298NDriver.stop`: both motors to the neutral value, stored speeds to 0. -/
def stop (s : State) : State :=
  { s with left_value := 0, right_value := 0,
           current_left_speed := 0, current_right_speed := 0 }

/-- `L298NDriver.get_speeds`: the last commanded (not measured) speeds. -/
def get_speeds (s : State) : ℤ × ℤ := (s.current_left_speed, s.current_right_speed)

/-- A freshly constructed driver: speeds 0, neutral values, no reversal. -/
def init : State :=
  { current_left_speed := 0, current_right_speed := 0,
    left_value := 0, right_value := 0,
    left_reverse := false, right_reverse := false }

end L298NDriver

namespace DifferentialDrive

/-- `DifferentialDrive.set_velocity` (src/drivers/motor/l298n_driver.py):
differential-drive kinematics from (linear, angular) velocity to the pair of
integer wheel speeds handed to `driver.set_motors`.  `wheel_base` and
`max_speed` come from the robot configuration; `max_velocity` is the
hard-coded 1.0 m/s. -/
def set_velocity (wheel_base : ℚ) (max_speed : ℤ) (linear angular : ℚ) : ℤ × ℤ :=
  let v_left := linear - angular * wheel_base / 2
  let v_right := linear + angular * wheel_base / 2
  let max_velocity : ℚ := 1
  let left_speed := pyInt ((v_left / max_velocity) * (max_speed : ℚ))
  let right_speed := pyInt ((v_right / max_velocity) * (max_speed : ℚ))
  let left_speed := clampInt (-max_speed) max_speed left_speed
  let right_speed := clampInt (-max_speed) max_speed right_speed
  (left_speed, right_speed)

end DifferentialDrive

namespace RobotController

/-- Observable state of `RobotController` (src/control/robot_controller.py),
driving the serial Arduino motor driver.  The wall-clock command timestamp
and watchdog thread are not modelled. -/
structure State where
  current_mode : String
  current_state : String
  current_speed : ℤ
  emergency_stopped : Bool
  driver : ArduinoDriver.State
deriving DecidableEq, Repr

/-- `RobotController.set_mode`: only the strings manual and auto are accepted;
auto sets the AUTO MODE label, manual sets IDLE; anything else is rejected
with no state change. -/
def set_mode (s : State) (mode : String) : Bool × State :=
  if mode = "manual" ∨ mode = "auto" then
    (true, { s with current_mode := mode,
                    current_state := if mode = "auto" then "AUTO MODE" else "IDLE" })
  else (false, s)

/-- `RobotController.set_speed`: clamp to [0, 255]. -/
def set_speed (s : State) (speed : ℤ) : State :=
  { s with current_speed := clampInt 0 255 speed }

/-- `RobotController._check_manual_mode`: reject when emergency-stopped or not
in manual mode. -/
def check_manual_mode (s : State) : Bool :=
  if s.emergency_stopped then false
  else if s.current_mode ≠ "manual" then false
  else true

/-- `RobotController.forward`.  The result is the returned Bool, the new
controller state, and the serial transmission log of the call. -/
def forward (s : State) : Bool × State × List SerialCmd :=
  if check_manual_mode s = false then (false, s, [])
  else
    let (d, t) := ArduinoDriver.forward s.driver s.current_speed
    (true, { s with driver := d, current_state := "MOVING FORWARD" }, t)

/-- `RobotController.backward`. -/
def backward (s : State) : Bool × State × List SerialCmd :=
  if check_manual_mode s = false then (false, s, [])
  else
    let (d, t) := ArduinoDriver.backward s.driver s.current_speed
    (true, { s with driver := d, current_state := "MOVING BACKWARD" }, t)

/-- `RobotController.left`: turn at `int(current_speed * 0.8)`. -/
def left (s : State) : Bool × State × List SerialCmd :=
  if check_manual_mode s = false then (false, s, [])
  else
    let turn_speed := pyInt ((s.current_speed : ℚ) * (8/10))
    let (d, t) := ArduinoDriver.turn_left s.driver turn_speed
    (true, { s with driver := d, current_state := "TURNING LEFT" }, t)

/-- `RobotController.right`. -/
def right (s : State) : Bool × State × List SerialCmd :=
  if check_manual_mode s = false then (false, s, [])
  else
    let turn_speed := pyInt ((s.current_speed : ℚ) * (8/10))
    let (d, t) := ArduinoDriver.turn_right s.driver turn_speed
    (true, { s with driver := d, current_state := "TURNING RIGHT" }, t)

/-- `RobotController.stop`: always succeeds. -/
def stop (s : State) : Bool × State × List SerialCmd :=
  let (d, t) := ArduinoDriver.stop s.driver
  let label :=
    if s.current_mode = "manual" then "STOPPED"
    else if s.current_mode = "auto" then "AUTO MODE"
    else s.current_state
  (true, { s with driver := d, current_state := label }, t)

/-- `RobotController.emergency_stop`: stop the driver, set the flag and the
EMERGENCY STOP label. -/
def emergency_stop (s : State) : Bool × State × List SerialCmd :=
  let (d, t) := ArduinoDriver.stop s.driver
  (true, { s with driver := d, emergency_stopped := true,
                  current_state := "EMERGENCY STOP" }, t)

/-- `RobotController.reset_emergency`. -/
def reset_emergency (s : State) : State :=
  { s with emergency_stopped := false, current_state := "IDLE" }

/-- `RobotController.get_state` motor-speed components, via `driver.get_speeds`. -/
def motor_speeds (s : State) : ℤ × ℤ := ArduinoDriver.get_speeds s.driver

end RobotController

namespace WebDashboard

/-- The `/set_mode` Flask route in src/main.py: the HTTP status code of the
response and the resulting robot-controller state.  The mode string is first
validated against manual/auto/follow (anything else is a 400), then handed
to `RobotController.set_mode`, whose failure also produces a 400.  The
controller start/stop side effects and socket emissions of the route are
outside this model. -/
def route_set_mode (s : RobotController.State) (mode : String) : ℕ × RobotController.State :=
  if mode = "manual" ∨ mode = "auto" ∨ mode = "follow" then
    let (ok, s1) := RobotController.set_mode s mode
    if ok then (200, s1) else (400, s1)
  else (400, s)

end WebDashboard

namespace PIDController

/-- Modelled from the spec: `control/pid_controller.py` is imported by the
robot controller but is not part of the repository snapshot.  Per the spec,
the PID controller keeps gains, output bounds and a derivative-smoothing
coefficient, plus a mutable integral accumulator, previous error and previous
(smoothed) derivative. -/
structure State where
  kp : ℚ
  ki : ℚ
  kd : ℚ
  output_min : ℚ
  output_max : ℚ
  derivative_smoothing : ℚ
  integral : ℚ
  prev_error : ℚ
  prev_derivative : ℚ
deriving DecidableEq, Repr

/-- Modelled from the spec: `compute(error, dt)` accumulates `error * dt`
into the integral, forms a smoothed derivative, and returns
`kp*error + ki*integral + kd*derivative` clamped to
`[output_min, output_max]`. -/
def compute (p : State) (error dt : ℚ) : ℚ × State :=
  let integral := p.integral + error * dt
  let derivative_raw := (error - p.prev_error) / dt
  let derivative := p.derivative_smoothing * p.prev_derivative +
    (1 - p.derivative_smoothing) * derivative_raw
  let output := p.kp * error + p.ki * integral + p.kd * derivative
  let output := max p.output_min (min p.output_max output)
  (output, { p with integral := integral, prev_error := error,
                    prev_derivative := derivative })

/-- Modelled from the spec: `reset()` zeroes the accumulated state. -/
def reset (p : State) : State :=
  { p with integral := 0, prev_error := 0, prev_derivative := 0 }

end PIDController

namespace AutoModeController

/-- `AutoModeController.MAX_ERROR_THRESHOLD`. -/
def MAX_ERROR_THRESHOLD : ℤ := 150

/-- `AutoModeController.lane_lost_threshold`. -/
def lane_lost_threshold : ℕ := 5

/-- `AutoModeController.recovery_scan_speed`. -/
def recovery_scan_speed : ℤ := 130

/-- `AutoModeController.recovery_max_scan_time` (seconds). -/
def recovery_max_scan_time : ℚ := 3

/-- `AutoModeController.recovery_max_attempts`. -/
def recovery_max_attempts : ℕ := 2

/-- Observable state of `AutoModeController` plus its owned robot controller.
The camera, detector and debug-frame fields are not part of the model; the
loop thread handle is represented by the `running` flag. -/
structure State where
  running : Bool
  pid : PIDController.State
  lane_lost_count : ℕ
  base_speed : ℤ
  default_speed : ℤ
  recovery_mode : Bool
  recovery_direction : String
  recovery_scan_time : ℚ
  recovery_attempts : ℕ
  robot : RobotController.State
deriving DecidableEq, Repr

/-- `AutoModeController.start`: a no-op returning False when already running;
otherwise camera init (success passed in as `cameraOk`), PID reset, counter
and speed reset, mode switch to auto, and thread launch. -/
def start (cameraOk : Bool) (s : State) : Bool × State :=
  if s.running = false then
    if cameraOk = false then (false, s)
    else
      let robot1 := (RobotController.set_mode s.robot "auto").2
      (true, { s with pid := PIDController.reset s.pid,
                      lane_lost_count := 0,
                      base_speed := s.default_speed,
                      robot := robot1,
                      running := true })
  else (false, s)

/-- The scanning turn issued at the end of `_perform_lane_recovery`:
turn toward the current scan direction at the scan speed and set the
SCAN LEFT / SCAN RIGHT label (the label's elapsed-time suffix is elided). -/
def scan_turn (s : State) : Bool × State :=
  if s.recovery_direction = "left" then
    (false, { s with robot := { s.robot with
        driver := (ArduinoDriver.turn_left s.robot.driver recovery_scan_speed).1,
        current_state := "SCAN LEFT" } })
  else
    (false, { s with robot := { s.robot with
        driver := (ArduinoDriver.turn_right s.robot.driver recovery_scan_speed).1,
        current_state := "SCAN RIGHT" } })

/-- `AutoModeController._perform_lane_recovery`, with the lane error returned
by `detect_line` on the current frame passed in as `error`: succeed at once
on a valid reading; otherwise accumulate 0.05s of scan time (in binary64
float arithmetic, as the source's `+= 0.05` does), switch direction
when the per-direction bound elapses (incrementing the attempt counter only
when switching from right back to left), give up once the attempt counter
reaches the maximum, and otherwise keep turning toward the scan direction. -/
def perform_lane_recovery (error : ℤ) (s : State) : Bool × State :=
  if |error| ≤ MAX_ERROR_THRESHOLD then (true, s)
  else
    let st := float64_add s.recovery_scan_time float005
    if recovery_max_scan_time ≤ st then
      let dir_att : String × ℕ :=
        if s.recovery_direction = "left" then ("right", s.recovery_attempts)
        else ("left", s.recovery_attempts + 1)
      let s1 := { s with recovery_direction := dir_att.1,
                         recovery_attempts := dir_att.2,
                         recovery_scan_time := 0 }
      if recovery_max_attempts ≤ s1.recovery_attempts then (false, s1)
      else scan_turn s1
    else scan_turn { s with recovery_scan_time := st }

/-- One iteration of `AutoModeController._auto_loop` from the lane-detection
step on (the lane-validity check, recovery handling and PID drive of lines
444-507), in a tick with no traffic-sign detections; the lane error returned
by `detect_line` is passed in as `error`. -/
def auto_lane_step (error : ℤ) (s : State) : State :=
  let is_lane_valid : Bool := |error| ≤ MAX_ERROR_THRESHOLD
  if is_lane_valid = false then
    let lost := s.lane_lost_count + 1
    if lane_lost_threshold ≤ lost then
      let s1 :=
        if s.recovery_mode then { s with lane_lost_count := lost }
        else { s with lane_lost_count := lost, recovery_mode := true,
                      recovery_scan_time := 0, recovery_attempts := 0,
                      recovery_direction := "left" }
      let found_s2 := perform_lane_recovery error s1
      let s2 := found_s2.2
      if found_s2.1 then { s2 with recovery_mode := false, lane_lost_count := 0 }
      else if recovery_max_attempts ≤ s2.recovery_attempts then
        { s2 with recovery_mode := false,
                  robot := { s2.robot with
                    driver := (ArduinoDriver.stop s2.robot.driver).1,
                    current_state := "RECOVERY FAILED" } }
      else s2
    else
      { s with lane_lost_count := lost,
               robot := { s.robot with
                 driver := (ArduinoDriver.stop s.robot.driver).1,
                 current_state := "SEARCHING (" ++ toString lost ++ "/" ++
                   toString lane_lost_threshold ++ ")" } }
  else
    let s1 := { s with lane_lost_count := 0 }
    let s1 :=
      if s1.recovery_mode then
        { s1 with recovery_mode := false,
                  robot := { s1.robot with
                    driver := (ArduinoDriver.stop s1.robot.driver).1 } }
      else s1
    let s1 := { s1 with robot := { s1.robot with
                 current_state := "FOLLOWING LANE (Err: " ++ toString error ++ ")" } }
    let corr_pid := PIDController.compute s1.pid error float005
    let correction := corr_pid.1
    let left_speed := max (-255) (min 255 (pyInt ((s1.base_speed : ℚ) - correction)))
    let right_speed := max (-255) (min 255 (pyInt ((s1.base_speed : ℚ) + correction)))
    { s1 with pid := corr_pid.2,
              robot := { s1.robot with
                driver := (ArduinoDriver.set_motors s1.robot.driver left_speed right_speed).1 } }

end AutoModeController

namespace IMUSensorFusion

/-- Observable state of `IMUSensorFusion` (src/perception/imu_sensor_fusion.py):
fused orientation, calibration offsets, temperature baseline, the
consecutive-read-error counter and the connection/running flags.  Wall-clock
timestamps are not modelled. -/
structure State where
  connected : Bool
  running : Bool
  roll : ℚ
  pitch : ℚ
  yaw : ℚ
  gyro_x_offset : ℚ
  gyro_y_offset : ℚ
  gyro_z_offset : ℚ
  accel_x_offset : ℚ
  accel_y_offset : ℚ
  accel_z_offset : ℚ
  temp_baseline : ℚ
  read_error_count : ℕ
deriving DecidableEq, Repr

/-- `IMUSensorFusion.MAX_READ_ERRORS`. -/
def MAX_READ_ERRORS : ℕ := 5

/-- `IMUSensorFusion._check_connection`: the device is marked disconnected
when no successful read happened within the 5s timeout; whether the
wall-clock timeout has expired is passed in as `timedOut`. -/
def check_connection (timedOut : Bool) (s : State) : State :=
  if timedOut then { s with connected := false } else s

/-- `IMUSensorFusion._read_word_safe` with the default 3 retries, unrolled
over the outcomes of the three bus read attempts (`some v` for a successful
signed-word read of `v`, `none` for an I2C exception).  A success resets the
error counter and returns the value; each failed attempt increments the
counter; after the last failed attempt the device is marked disconnected if
the counter has reached `MAX_READ_ERRORS`, the connection-timeout check runs,
and 0 is returned. -/
def read_word_safe (a0 a1 a2 : Option ℤ) (timedOut : Bool) (s : State) : ℤ × State :=
  match a0 with
  | some v => (v, { s with read_error_count := 0 })
  | none =>
    let s := { s with read_error_count := s.read_error_count + 1 }
    match a1 with
    | some v => (v, { s with read_error_count := 0 })
    | none =>
      let s := { s with read_error_count := s.read_error_count + 1 }
      match a2 with
      | some v => (v, { s with read_error_count := 0 })
      | none =>
        let s := { s with read_error_count := s.read_error_count + 1 }
        let s := if MAX_READ_ERRORS ≤ s.read_error_count
                 then { s with connected := false } else s
        (0, check_connection timedOut s)

/-- `IMUSensorFusion.reset_yaw`. -/
def reset_yaw (s : State) : State := { s with yaw := 0 }

/-- `IMUSensorFusion.reset_all`. -/
def reset_all (s : State) : State := { s with roll := 0, pitch := 0, yaw := 0 }

end IMUSensorFusion

namespace LaneDetector

/-- One segment returned by `cv2.HoughLinesP` on the masked edge image of the
640x480 working frame: endpoint pixel coordinates. -/
structure Segment where
  x1 : ℤ
  y1 : ℤ
  x2 : ℤ
  y2 : ℤ
deriving DecidableEq, Repr

/-- A candidate lane line as stored in `left_lines` / `right_lines`:
the segment endpoints plus its slope. -/
structure ClassifiedLine where
  x1 : ℤ
  y1 : ℤ
  x2 : ℤ
  y2 : ℤ
  slope : ℚ
deriving DecidableEq, Repr

/-- Frame height after the initial resize to 640x480. -/
def frame_height : ℤ := 480

/-- Frame width after the initial resize to 640x480. -/
def frame_width : ℤ := 640

/-- `center_x = width // 2`. -/
def center_x : ℤ := Int.fdiv frame_width 2

/-- `LANE_WIDTH_PIXELS` for the black-on-white track calibration. -/
def LANE_WIDTH_PIXELS : ℤ := 240

/-- The segment's slope `(y2 - y1) / (x2 - x1)`, computed in float
(here exact rational) arithmetic. -/
def seg_slope (g : Segment) : ℚ := ((g.y2 - g.y1 : ℤ) : ℚ) / ((g.x2 - g.x1 : ℤ) : ℚ)

/-- Which side, if any, the classification loop of `detect_line` assigns a
Hough segment to: near-vertical-in-x segments (`|x2 - x1| < 1`) and
near-horizontal slopes (`|slope| < 0.5`) are skipped; a steep negative slope
left of center is a left-lane candidate; a steep positive slope right of
center is a right-lane candidate. -/
def classify_segment (g : Segment) : Option Bool :=
  if |g.x2 - g.x1| < 1 then none
  else
    let m := seg_slope g
    if |m| < 1/2 then none
    else
      let mid_x : ℚ := ((g.x1 + g.x2 : ℤ) : ℚ) / 2
      if m < -(1/2) ∧ mid_x < (center_x : ℚ) then some true
      else if 1/2 < m ∧ (center_x : ℚ) < mid_x then some false
      else none

/-- The `left_lines` list accumulated by the classification loop. -/
def left_lines (segs : List Segment) : List ClassifiedLine :=
  segs.filterMap fun g =>
    if classify_segment g = some true then
      some ⟨g.x1, g.y1, g.x2, g.y2, seg_slope g⟩
    else none

/-- The `right_lines` list accumulated by the classification loop. -/
def right_lines (segs : List Segment) : List ClassifiedLine :=
  segs.filterMap fun g =>
    if classify_segment g = some false then
      some ⟨g.x1, g.y1, g.x2, g.y2, seg_slope g⟩
    else none

/-- `np.median` on a nonempty list: the middle element of the sorted list, or
the mean of the two middle elements when the length is even. -/
def median (xs : List ℚ) : ℚ :=
  let sorted := List.insertionSort (fun a b => a ≤ b) xs
  let n := xs.length
  if n % 2 = 1 then sorted.getD (n / 2) 0
  else (sorted.getD (n / 2 - 1) 0 + sorted.getD (n / 2) 0) / 2

/-- The inner `calculate_lane_x` of `detect_line`: extrapolate each candidate
line to the bottom of the frame, keep the plausible hits inside `[0, width]`,
and return `int(median(...))` of them, or None when there is nothing to use. -/
def calculate_lane_x (lines : List ClassifiedLine) : Option ℤ :=
  if lines = [] then none
  else
    let x_bottoms := lines.filterMap fun l =>
      let x_bottom := (l.x1 : ℚ) + ((frame_height : ℚ) - (l.y1 : ℚ)) / l.slope
      if 0 ≤ x_bottom ∧ x_bottom ≤ (frame_width : ℚ) then some x_bottom else none
    if x_bottoms = [] then none
    else some (pyInt (median x_bottoms))

/-- `detect_line` (src/perception/lane_detector.py) from the Hough segments
of the 640x480 working frame on: returns `(error, x_line, center_x)` plus the
`lane_status` string.  With both lanes the midline is their average; with one
lane it is offset by half the assumed lane width; with no lane the midline
defaults to the frame center and the error is forced to the 999 sentinel. -/
def detect_line (segs : List Segment) : ℤ × ℤ × ℤ × String :=
  let left_lane_x := calculate_lane_x (left_lines segs)
  let right_lane_x := calculate_lane_x (right_lines segs)
  let xl_status : ℤ × String :=
    match left_lane_x, right_lane_x with
    | some l, some r => (Int.fdiv (l + r) 2, "BOTH_LANES")
    | some l, none => (l + Int.fdiv LANE_WIDTH_PIXELS 2, "LEFT_ONLY")
    | none, some r => (r - Int.fdiv LANE_WIDTH_PIXELS 2, "RIGHT_ONLY")
    | none, none => (center_x, "NO_LANE")
  let x_line := xl_status.1
  let lane_status := xl_status.2
  let error := if lane_status = "NO_LANE" then 999 else x_line - center_x
  (error, x_line, center_x, lane_status)

end LaneDetector

/-- A connected Arduino driver with both motors at rest. -/
def sampleDriver : ArduinoDriver.State := ⟨true, 0, 0⟩

/-- A manual-mode robot controller in its initial state. -/
def sampleRC : RobotController.State := ⟨"manual", "IDLE", 150, false, sampleDriver⟩

/-- A robot controller that has just executed `emergency_stop` while driving. -/
def rcEmergency : RobotController.State := ⟨"manual", "EMERGENCY STOP", 150, true, ⟨true, 120, 120⟩⟩

/-- A PID controller at the default lane-following gains, freshly reset. -/
def samplePID : PIDController.State := ⟨1/5, 0, 1/20, -255, 255, 7/10, 0, 0, 0⟩

/-- A running auto-mode controller that has just started lane following. -/
def sampleAuto : AutoModeController.State :=
  ⟨true, samplePID, 0, 100, 100, false, "left", 0, 0, ⟨"auto", "AUTO MODE", 150, false, sampleDriver⟩⟩

/-- An auto-mode controller mid-recovery: scanning left, 3.0s on its scan
timer. -/
def scanLeftState : AutoModeController.State :=
  ⟨true, samplePID, 10, 100, 100, true, "left", 3, 0,
   ⟨"auto", "SCAN LEFT", 150, false, sampleDriver⟩⟩

/-- An auto-mode controller mid-recovery: scanning right, 3.0s on its scan
timer. -/
def scanRightState : AutoModeController.State :=
  ⟨true, samplePID, 10, 100, 100, true, "right", 3, 0,
   ⟨"auto", "SCAN RIGHT", 150, false, sampleDriver⟩⟩

/-- An auto-mode controller at the end of its second full scan cycle. -/
def scanFailState : AutoModeController.State :=
  ⟨true, samplePID, 10, 100, 100, true, "right", 3, 1,
   ⟨"auto", "SCAN RIGHT", 150, false, sampleDriver⟩⟩

/-- A healthy connected IMU with a zero error counter. -/
def sampleIMU : IMUSensorFusion.State :=
  ⟨true, true, 1/2, -1/3, 45, 1, 2, 3, 1/10, 1/5, 1, 30, 0⟩

/-- Python `int()` of a negated float negates the truncation. -/
theorem pyInt_neg (q : ℚ) : pyInt (-q) = -pyInt q := by
  unfold pyInt
  rcases lt_trichotomy q 0 with h | h | h
  · rw [if_pos (by linarith), if_neg (not_le.mpr h), Int.floor_neg]
  · subst h; norm_num
  · rw [if_neg (not_le.mpr (by linarith)), if_pos h.le, Int.ceil_neg]

/-- Python `int()` agrees with the floor on nonnegative floats. -/
theorem pyInt_of_nonneg {q : ℚ} (h : 0 ≤ q) : pyInt q = ⌊q⌋ := if_pos h

/-- C1.  After `emergency_stop()` sets the emergency flag, and as long as the
flag is set, each of `forward`, `backward`, `left`, `right` returns False,
transmits nothing to the driver, and leaves the controller state — hence the
motor speeds reported by the driver — unchanged, regardless of the current
mode. -/
theorem C1_emergency_stop_blocks_manual_commands (s t : RobotController.State)
    (h : t.emergency_stopped = true) :
    (RobotController.emergency_stop s).2.1.emergency_stopped = true ∧
    RobotController.forward t = (false, t, []) ∧
    RobotController.backward t = (false, t, []) ∧
    RobotController.left t = (false, t, []) ∧
    RobotController.right t = (false, t, []) ∧
    RobotController.motor_speeds (RobotController.forward t).2.1 =
      RobotController.motor_speeds t := by
  refine ⟨rfl, ?_, ?_, ?_, ?_, ?_⟩ <;>
    simp [RobotController.forward, RobotController.backward, RobotController.left,
          RobotController.right, RobotController.check_manual_mode, h]

/-- Witness for C1 at a concrete emergency-stopped controller. -/
theorem C1_emergency_witness :
    RobotController.forward rcEmergency = (false, rcEmergency, []) ∧
    RobotController.left rcEmergency = (false, rcEmergency, []) := by
  have h := C1_emergency_stop_blocks_manual_commands rcEmergency rcEmergency rfl
  exact ⟨h.2.1, h.2.2.2.1⟩

/-- C2 counterexample.  On the direct-GPIO driver, `set_motors(9999, -9999)`
leaves `get_speeds` reporting the raw `(9999, -9999)`, not the claimed
clamped `(255, -255)`. -/
theorem C2_counterexample :
    L298NDriver.get_speeds (L298NDriver.set_motors L298NDriver.init 9999 (-9999)) =
      (9999, -9999) ∧
    L298NDriver.get_speeds (L298NDriver.set_motors L298NDriver.init 9999 (-9999)) ≠
      (255, -255) := by
  exact ⟨rfl, by decide⟩

/-- C2 amended.  For every input pair, the serial driver stores and (when
connected) transmits speeds clamped into [-255, 255] — with `(9999, -9999)`
its `get_speeds` reports exactly `(255, -255)` — and the direct-GPIO driver
applies normalized drive values clamped into [-1, 1] (the clamped speed over
255, negated by the reversal flag), but stores the raw requested speeds,
which `get_speeds` then reports unclamped. -/
theorem C2_clamping_amended (s : ArduinoDriver.State) (t : L298NDriver.State) (l r : ℤ) :
    (ArduinoDriver.set_motors s l r).1.left_speed = clampInt (-255) 255 l ∧
    (ArduinoDriver.set_motors s l r).1.right_speed = clampInt (-255) 255 r ∧
    (ArduinoDriver.set_motors s l r).2 =
      (if s.connected then [SerialCmd.move (clampInt (-255) 255 l) (clampInt (-255) 255 r)]
       else []) ∧
    -255 ≤ clampInt (-255) 255 l ∧ clampInt (-255) 255 l ≤ 255 ∧
    ArduinoDriver.get_speeds (ArduinoDriver.set_motors s 9999 (-9999)).1 = (255, -255) ∧
    (L298NDriver.set_motors t l r).left_value =
      (if t.left_reverse then -(1 : ℚ) else 1) * ((clampInt (-255) 255 l : ℚ) / 255) ∧
    (L298NDriver.set_motors t l r).right_value =
      (if t.right_reverse then -(1 : ℚ) else 1) * ((clampInt (-255) 255 r : ℚ) / 255) ∧
    |(L298NDriver.set_motors t l r).left_value| ≤ 1 ∧
    (L298NDriver.set_motors t l r).current_left_speed = l ∧
    (L298NDriver.set_motors t l r).current_right_speed = r := by
  have hlo : (-255 : ℤ) ≤ clampInt (-255) 255 l := le_max_left _ _
  have hhi : clampInt (-255) 255 l ≤ 255 := max_le (by norm_num) (min_le_left _ _)
  have habs : |(clampInt (-255) 255 l : ℚ) / 255| ≤ 1 := by
    rw [abs_div, abs_of_pos (by norm_num : (0:ℚ) < 255), div_le_one (by norm_num)]
    rw [abs_le]
    constructor
    · exact_mod_cast hlo
    · exact_mod_cast hhi
  refine ⟨rfl, rfl, ?_, hlo, hhi, rfl, ?_, ?_, ?_, rfl, rfl⟩
  · by_cases hc : s.connected <;>
      simp [ArduinoDriver.set_motors, ArduinoDriver.send_command, hc]
  · by_cases hrev : t.left_reverse <;>
      simp [L298NDriver.set_motors, L298NDriver.set_left_motor,
            L298NDriver.set_right_motor, L298NDriver.speed_to_value, hrev]
  · by_cases hrev : t.right_reverse <;>
      simp [L298NDriver.set_motors, L298NDriver.set_left_motor,
            L298NDriver.set_right_motor, L298NDriver.speed_to_value, hrev]
  · by_cases hrev : t.left_reverse <;>
      simpa [L298NDriver.set_motors, L298NDriver.set_left_motor,
             L298NDriver.set_right_motor, L298NDriver.speed_to_value, hrev,
             abs_neg] using habs

/-- C3 counterexample.  With the serial link down, `set_motors(100, 50)` still
changes the observable driver state: `get_speeds` moves from `(0, 0)` to
`(100, 50)`. -/
theorem C3_counterexample :
    (ArduinoDriver.set_motors ⟨false, 0, 0⟩ 100 50).2 = [] ∧
    ArduinoDriver.get_speeds (ArduinoDriver.set_motors ⟨false, 0, 0⟩ 100 50).1 ≠
      ArduinoDriver.get_speeds ⟨false, 0, 0⟩ := by decide

/-- C3 amended.  When the serial driver is not connected, every motion
command transmits nothing on the serial port (a warning is logged), but the
stored speeds reported by `get_speeds` are still updated to the clamped
requested values. -/
theorem C3_disconnected_amended (s : ArduinoDriver.State) (l r v : ℤ)
    (h : s.connected = false) :
    (ArduinoDriver.set_motors s l r).2 = [] ∧
    (ArduinoDriver.set_motors s l r).1 =
      { s with left_speed := clampInt (-255) 255 l, right_speed := clampInt (-255) 255 r } ∧
    (ArduinoDriver.forward s v).2 = [] ∧
    (ArduinoDriver.backward s v).2 = [] ∧
    (ArduinoDriver.turn_left s v).2 = [] ∧
    (ArduinoDriver.turn_right s v).2 = [] ∧
    (ArduinoDriver.stop s).2 = [] ∧
    (ArduinoDriver.stop s).1.left_speed = 0 ∧
    (ArduinoDriver.stop s).1.right_speed = 0 := by
  refine ⟨?_, rfl, ?_, ?_, ?_, ?_, ?_, rfl, rfl⟩ <;>
    simp [ArduinoDriver.set_motors, ArduinoDriver.forward, ArduinoDriver.backward,
          ArduinoDriver.turn_left, ArduinoDriver.turn_right, ArduinoDriver.stop,
          ArduinoDriver.send_command, h]

/-- Witness for C3 at a concrete disconnected driver. -/
theorem C3_disconnected_witness :
    (ArduinoDriver.set_motors ⟨false, 3, 4⟩ 400 (-7)).2 = [] ∧
    (ArduinoDriver.set_motors ⟨false, 3, 4⟩ 400 (-7)).1 =
      ⟨false, clampInt (-255) 255 400, clampInt (-255) 255 (-7)⟩ := by
  have h := C3_disconnected_amended ⟨false, 3, 4⟩ 400 (-7) 9 rfl
  exact ⟨h.1, h.2.1⟩

/-- C4 counterexample.  `set_mode("follow")` returns False (the accepted set
is only manual/auto), so the dashboard route `/set_mode?mode=follow` answers
with status 400 instead of succeeding. -/
theorem C4_counterexample :
    (RobotController.set_mode sampleRC "follow").1 = false ∧
    (WebDashboard.route_set_mode sampleRC "follow").1 = 400 := by decide

/-- C4 amended.  `set_mode` returns True and updates the mode and state label
exactly for the modes manual and auto; every other string — including follow —
returns False with no state change, so the dashboard route passes its own
manual/auto/follow validation for follow but then fails with a 400. -/
theorem C4_set_mode_amended (s : RobotController.State) (mode : String)
    (hm : mode ≠ "manual") (ha : mode ≠ "auto") :
    RobotController.set_mode s "manual" =
      (true, { s with current_mode := "manual", current_state := "IDLE" }) ∧
    RobotController.set_mode s "auto" =
      (true, { s with current_mode := "auto", current_state := "AUTO MODE" }) ∧
    RobotController.set_mode s mode = (false, s) ∧
    WebDashboard.route_set_mode s "follow" = (400, s) := by
  refine ⟨by simp [RobotController.set_mode], by simp [RobotController.set_mode], ?_, ?_⟩
  · simp [RobotController.set_mode, hm, ha]
  · simp [WebDashboard.route_set_mode, RobotController.set_mode]

/-- Witness for C4 at the follow mode string. -/
theorem C4_set_mode_witness :
    RobotController.set_mode sampleRC "follow" = (false, sampleRC) ∧
    WebDashboard.route_set_mode sampleRC "follow" = (400, sampleRC) := by
  have h := C4_set_mode_amended sampleRC "follow" (by decide) (by decide)
  exact ⟨h.2.2.1, h.2.2.2⟩

set_option maxRecDepth 8000 in
/-- C5 counterexample.  From a freshly started auto controller fed a constant
invalid lane error, the first time the 3.0s per-direction scan elapses is the
65th loop iteration: 4 searching ticks, then 61 scan ticks, because the
binary64 accumulation of `+= 0.05` reaches only 2.9999999999999973 < 3.0
after 60 ticks (so at iteration 64 the direction is still left).  At that
first switch the direction moves from left to right but the attempt counter
is still 0, not the 1 the claim requires after a switch. -/
theorem C5_counterexample :
    ((AutoModeController.auto_lane_step 999)^[64] sampleAuto).recovery_direction = "left" ∧
    ((AutoModeController.auto_lane_step 999)^[65] sampleAuto).recovery_mode = true ∧
    ((AutoModeController.auto_lane_step 999)^[65] sampleAuto).recovery_direction = "right" ∧
    ¬ ((AutoModeController.auto_lane_step 999)^[65] sampleAuto).recovery_attempts = 1 := by
  refine ⟨by decide, by decide, by decide, by decide⟩

/-- C5 amended.  With an invalid lane reading: reaching the lost-count
threshold activates recovery scanning left with a zeroed attempt counter;
each time the 3.0s per-direction scan elapses the direction switches, but
the attempt counter is incremented only on switches from right back to left
(once per full left+right cycle); and the loop declares RECOVERY FAILED with
the drivetrain stopped once the counter reaches the maximum of 2, i.e. after
the second full cycle. -/
theorem C5_recovery_amended (e : ℤ)
    (he : ¬ |e| ≤ AutoModeController.MAX_ERROR_THRESHOLD) :
    (∀ s : AutoModeController.State, s.recovery_mode = false →
      AutoModeController.lane_lost_threshold ≤ s.lane_lost_count + 1 →
      (AutoModeController.auto_lane_step e s).recovery_mode = true ∧
      (AutoModeController.auto_lane_step e s).recovery_direction = "left" ∧
      (AutoModeController.auto_lane_step e s).recovery_attempts = 0 ∧
      (AutoModeController.auto_lane_step e s).recovery_scan_time = float005) ∧
    (∀ s : AutoModeController.State, s.recovery_direction = "left" →
      AutoModeController.recovery_max_scan_time ≤
        float64_add s.recovery_scan_time float005 →
      (AutoModeController.perform_lane_recovery e s).1 = false ∧
      (AutoModeController.perform_lane_recovery e s).2.recovery_direction = "right" ∧
      (AutoModeController.perform_lane_recovery e s).2.recovery_attempts =
        s.recovery_attempts ∧
      (AutoModeController.perform_lane_recovery e s).2.recovery_scan_time = 0) ∧
    (∀ s : AutoModeController.State, s.recovery_direction ≠ "left" →
      AutoModeController.recovery_max_scan_time ≤
        float64_add s.recovery_scan_time float005 →
      (AutoModeController.perform_lane_recovery e s).1 = false ∧
      (AutoModeController.perform_lane_recovery e s).2.recovery_direction = "left" ∧
      (AutoModeController.perform_lane_recovery e s).2.recovery_attempts =
        s.recovery_attempts + 1) ∧
    (∀ s : AutoModeController.State, s.recovery_mode = true →
      AutoModeController.lane_lost_threshold ≤ s.lane_lost_count + 1 →
      s.recovery_direction ≠ "left" →
      AutoModeController.recovery_max_scan_time ≤
        float64_add s.recovery_scan_time float005 →
      AutoModeController.recovery_max_attempts ≤ s.recovery_attempts + 1 →
      (AutoModeController.auto_lane_step e s).robot.current_state = "RECOVERY FAILED" ∧
      (AutoModeController.auto_lane_step e s).recovery_mode = false ∧
      RobotController.motor_speeds (AutoModeController.auto_lane_step e s).robot = (0, 0)) := by
  have hd : (decide (|e| ≤ AutoModeController.MAX_ERROR_THRESHOLD)) = false :=
    decide_eq_false he
  refine ⟨?_, ?_, ?_, ?_⟩
  · intro s hrm hthr
    have hx : ¬ (AutoModeController.recovery_max_scan_time ≤ float005) := by decide
    have h0 : float64_add 0 float005 = float005 := by decide
    simp [AutoModeController.auto_lane_step, AutoModeController.perform_lane_recovery,
          AutoModeController.scan_turn, he, hd, hrm, hthr, hx, h0,
          AutoModeController.recovery_max_attempts]
  · intro s hl hel
    have hrl : ¬ (("right" : String) = "left") := by decide
    by_cases hca : 2 ≤ s.recovery_attempts <;>
      simp [AutoModeController.perform_lane_recovery, AutoModeController.scan_turn,
            he, hel, hl, hca, hrl, AutoModeController.recovery_max_attempts]
  · intro s hl hel
    by_cases hca : 2 ≤ s.recovery_attempts + 1 <;>
      simp [AutoModeController.perform_lane_recovery, AutoModeController.scan_turn,
            he, hel, hl, hca, AutoModeController.recovery_max_attempts]
  · intro s hrm hthr hl hel hatt
    have hatt2 : 2 ≤ s.recovery_attempts + 1 := hatt
    norm_num [AutoModeController.auto_lane_step, AutoModeController.perform_lane_recovery,
          AutoModeController.scan_turn, he, hd, hrm, hthr, hl, hel, hatt2,
          AutoModeController.recovery_max_attempts,
          RobotController.motor_speeds, ArduinoDriver.stop, ArduinoDriver.set_motors,
          ArduinoDriver.send_command, ArduinoDriver.get_speeds, clampInt]

/-- Witness for C5 at concrete mid-recovery states: a left-to-right switch
keeps the counter at 0, a right-to-left switch raises it to 1, and the step
after the second full cycle fails with the drivetrain stopped. -/
theorem C5_recovery_witness :
    (AutoModeController.perform_lane_recovery 999 scanLeftState).2.recovery_attempts = 0 ∧
    (AutoModeController.perform_lane_recovery 999 scanRightState).2.recovery_attempts = 1 ∧
    (AutoModeController.auto_lane_step 999 scanFailState).robot.current_state =
      "RECOVERY FAILED" := by
  have h := C5_recovery_amended 999 (by decide)
  refine ⟨?_, ?_, ?_⟩
  · have hx := h.2.1 scanLeftState rfl (by decide)
    exact hx.2.2.1
  · have hx := h.2.2.1 scanRightState (by decide) (by decide)
    exact hx.2.2
  · have hx := h.2.2.2 scanFailState rfl (by decide) (by decide) (by decide) (by decide)
    exact hx.1

/-- C6 counterexample.  From a healthy IMU with a zero error counter, a
single read that exhausts its 3 retries leaves the counter at 3 — not the
claimed 1 — and a second such read (counter 6) already clears the connected
flag, rather than the flag clearing only after 5 exhausted reads. -/
theorem C6_counterexample :
    (IMUSensorFusion.read_word_safe none none none false sampleIMU).2.read_error_count = 3 ∧
    ¬ (IMUSensorFusion.read_word_safe none none none false sampleIMU).2.read_error_count = 1 ∧
    (IMUSensorFusion.read_word_safe none none none false sampleIMU).2.connected = true ∧
    (IMUSensorFusion.read_word_safe none none none false
      (IMUSensorFusion.read_word_safe none none none false sampleIMU).2).2.connected
      = false := by
  refine ⟨by decide, by decide, by decide, by decide⟩

/-- C6 amended.  Each register read retries up to 3 times; a successful
attempt returns the value and resets the consecutive-error counter to 0;
each failed attempt increments the counter, so a read that exhausts its
retries returns 0 and adds 3; and at the end of an exhausted read the
connected flag is cleared exactly when the counter has reached 5 (or the
separate 5s connection timeout has expired) — starting from a zero counter,
at the second consecutive exhausted read. -/
theorem C6_read_retry_amended (s : IMUSensorFusion.State) (v : ℤ) (a1 a2 : Option ℤ)
    (t : Bool) :
    IMUSensorFusion.read_word_safe (some v) a1 a2 t s =
      (v, { s with read_error_count := 0 }) ∧
    IMUSensorFusion.read_word_safe none (some v) a2 t s =
      (v, { s with read_error_count := 0 }) ∧
    IMUSensorFusion.read_word_safe none none (some v) t s =
      (v, { s with read_error_count := 0 }) ∧
    (IMUSensorFusion.read_word_safe none none none t s).1 = 0 ∧
    (IMUSensorFusion.read_word_safe none none none t s).2.read_error_count =
      s.read_error_count + 3 ∧
    (IMUSensorFusion.read_word_safe none none none t s).2.connected =
      (if IMUSensorFusion.MAX_READ_ERRORS ≤ s.read_error_count + 3 ∨ t = true
       then false else s.connected) := by
  have h3 : s.read_error_count + 1 + 1 + 1 = s.read_error_count + 3 := by omega
  refine ⟨rfl, rfl, rfl, rfl, ?_, ?_⟩
  · simp only [IMUSensorFusion.read_word_safe, IMUSensorFusion.check_connection]
    split <;> split <;> simp [h3]
  · have h5d : (IMUSensorFusion.MAX_READ_ERRORS ≤ s.read_error_count + 1 + 1 + 1) ↔
        (IMUSensorFusion.MAX_READ_ERRORS ≤ s.read_error_count + 3) := by
      rw [h3]
    by_cases h5 : IMUSensorFusion.MAX_READ_ERRORS ≤ s.read_error_count + 3 <;>
      by_cases ht : t = true <;>
      simp [IMUSensorFusion.read_word_safe, IMUSensorFusion.check_connection, h5d, h5, ht]

/-- C7.  For every segment list in which no Hough segment is classified as a
left-lane or right-lane candidate, `detect_line` returns (totally, without
raising) the NO_LANE status, a midline at the 640x480 frame center x=320,
and the sentinel error 999 — distinct from the 0 a genuinely centered lane
would produce. -/
theorem C7_no_lane_sentinel (segs : List LaneDetector.Segment)
    (h : ∀ g ∈ segs, LaneDetector.classify_segment g = none) :
    LaneDetector.detect_line segs = (999, 320, 320, "NO_LANE") := by
  have hl : LaneDetector.left_lines segs = [] := by
    refine List.filterMap_eq_nil_iff.mpr fun g hg => ?_
    simp [LaneDetector.left_lines, h g hg]
  have hr : LaneDetector.right_lines segs = [] := by
    refine List.filterMap_eq_nil_iff.mpr fun g hg => ?_
    simp [LaneDetector.right_lines, h g hg]
  have hc : LaneDetector.center_x = 320 := by decide
  simp [LaneDetector.detect_line, LaneDetector.calculate_lane_x, hl, hr, hc]

/-- Witness for C7 at a single horizontal segment, which the slope filter
discards. -/
theorem C7_no_lane_witness :
    LaneDetector.detect_line [⟨0, 10, 100, 10⟩] = (999, 320, 320, "NO_LANE") :=
  C7_no_lane_sentinel _ (by decide)

/-- The clamp to `[-ms, ms]` of a nonnegative value and of its negation. -/
theorem clampInt_of_nonneg (ms t : ℤ) (hms : 0 < ms) (ht : 0 ≤ t) :
    clampInt (-ms) ms t = min ms t ∧ clampInt (-ms) ms (-t) = -min ms t := by
  constructor
  · exact max_eq_right (le_trans (by linarith) (le_min hms.le ht))
  · rw [clampInt, min_eq_right (le_trans (by linarith : -t ≤ 0) hms.le), max_neg_neg]

/-- The projection of `set_velocity` to its explicit arithmetic form. -/
theorem set_velocity_eq (wb : ℚ) (ms : ℤ) (lin ang : ℚ) :
    DifferentialDrive.set_velocity wb ms lin ang =
      (clampInt (-ms) ms (pyInt ((lin - ang * wb / 2) * (ms : ℚ))),
       clampInt (-ms) ms (pyInt ((lin + ang * wb / 2) * (ms : ℚ)))) := by
  unfold DifferentialDrive.set_velocity
  norm_num

/-- C8 counterexample.  At `linear = 0` and the (positive) angular velocity
`1/1000` with a 0.2m wheel base and a 255 max speed, the pre-truncation left
wheel value `-0.0255` truncates to 0, so the commanded left wheel speed is
not negative as the claim requires. -/
theorem C8_counterexample :
    (0 : ℚ) < 1/1000 ∧
    (DifferentialDrive.set_velocity (1/5) 255 0 (1/1000)).1 = 0 ∧
    ¬ (DifferentialDrive.set_velocity (1/5) 255 0 (1/1000)).1 < 0 := by
  refine ⟨by norm_num, by decide, by decide⟩

/-- C8 amended.  For `linear = 0, angular > 0` the commanded wheel speeds
are exact negatives of each other with the right wheel nonnegative (pure
rotation in place), and they are strictly negative/positive as the claim
states whenever the pre-truncation magnitude `angular * wheel_base/2 *
max_speed` is at least 1; for `angular = 0, linear > 0` the commanded wheel
speeds are equal and nonnegative, strictly positive whenever
`linear * max_speed` is at least 1.  (For smaller magnitudes the Python
`int()` truncation makes both speeds 0.) -/
theorem C8_kinematics_amended (wheel_base : ℚ) (max_speed : ℤ) (linear angular : ℚ)
    (hwb : 0 < wheel_base) (hms : 0 < max_speed) :
    (linear = 0 → 0 < angular →
      (DifferentialDrive.set_velocity wheel_base max_speed linear angular).1
        = -(DifferentialDrive.set_velocity wheel_base max_speed linear angular).2 ∧
      0 ≤ (DifferentialDrive.set_velocity wheel_base max_speed linear angular).2 ∧
      (1 ≤ angular * wheel_base / 2 * (max_speed : ℚ) →
        (DifferentialDrive.set_velocity wheel_base max_speed linear angular).1 < 0 ∧
        0 < (DifferentialDrive.set_velocity wheel_base max_speed linear angular).2)) ∧
    (angular = 0 → 0 < linear →
      (DifferentialDrive.set_velocity wheel_base max_speed linear angular).1
        = (DifferentialDrive.set_velocity wheel_base max_speed linear angular).2 ∧
      0 ≤ (DifferentialDrive.set_velocity wheel_base max_speed linear angular).1 ∧
      (1 ≤ linear * (max_speed : ℚ) →
        0 < (DifferentialDrive.set_velocity wheel_base max_speed linear angular).1)) := by
  have hmsq : (0 : ℚ) < (max_speed : ℚ) := by exact_mod_cast hms
  have hms1 : (1 : ℤ) ≤ max_speed := hms
  constructor
  · intro hlin hang
    subst hlin
    have ha : 0 < angular * wheel_base / 2 := by positivity
    have e1 : ((0 : ℚ) - angular * wheel_base / 2) * (max_speed : ℚ)
        = -(angular * wheel_base / 2 * (max_speed : ℚ)) := by ring
    have e2 : ((0 : ℚ) + angular * wheel_base / 2) * (max_speed : ℚ)
        = angular * wheel_base / 2 * (max_speed : ℚ) := by ring
    have hprod : (0 : ℚ) ≤ angular * wheel_base / 2 * (max_speed : ℚ) := by positivity
    have ht0 : 0 ≤ pyInt (angular * wheel_base / 2 * (max_speed : ℚ)) := by
      rw [pyInt_of_nonneg hprod]
      exact Int.floor_nonneg.mpr hprod
    have hcl := clampInt_of_nonneg max_speed
      (pyInt (angular * wheel_base / 2 * (max_speed : ℚ))) hms ht0
    rw [set_velocity_eq, e1, e2, pyInt_neg]
    refine ⟨by rw [hcl.1, hcl.2], by rw [hcl.1]; exact le_min hms.le ht0, ?_⟩
    intro hone
    have ht1 : (1 : ℤ) ≤ pyInt (angular * wheel_base / 2 * (max_speed : ℚ)) := by
      rw [pyInt_of_nonneg hprod]
      exact Int.le_floor.mpr (by exact_mod_cast hone)
    have hpos : (0 : ℤ) < min max_speed
        (pyInt (angular * wheel_base / 2 * (max_speed : ℚ))) :=
      lt_min hms (by omega)
    exact ⟨by rw [hcl.2]; omega, by rw [hcl.1]; exact hpos⟩
  · intro hang hlin
    subst hang
    have e1 : (linear - (0 : ℚ) * wheel_base / 2) * (max_speed : ℚ)
        = linear * (max_speed : ℚ) := by ring
    have e2 : (linear + (0 : ℚ) * wheel_base / 2) * (max_speed : ℚ)
        = linear * (max_speed : ℚ) := by ring
    have hprod : (0 : ℚ) ≤ linear * (max_speed : ℚ) := by positivity
    have ht0 : 0 ≤ pyInt (linear * (max_speed : ℚ)) := by
      rw [pyInt_of_nonneg hprod]
      exact Int.floor_nonneg.mpr hprod
    have hcl := clampInt_of_nonneg max_speed (pyInt (linear * (max_speed : ℚ))) hms ht0
    rw [set_velocity_eq, e1, e2]
    refine ⟨rfl, by rw [hcl.1]; exact le_min hms.le ht0, ?_⟩
    intro hone
    have ht1 : (1 : ℤ) ≤ pyInt (linear * (max_speed : ℚ)) := by
      rw [pyInt_of_nonneg hprod]
      exact Int.le_floor.mpr (by exact_mod_cast hone)
    rw [hcl.1]
    exact lt_min hms (by omega)

/-- Witness for C8 at a 0.2m wheel base, max speed 255, and unit velocities,
where the pre-truncation magnitudes exceed 1. -/
theorem C8_kinematics_witness :
    (DifferentialDrive.set_velocity (1/5) 255 0 1).1 < 0 ∧
    0 < (DifferentialDrive.set_velocity (1/5) 255 0 1).2 ∧
    (DifferentialDrive.set_velocity (1/5) 255 1 0).1 =
      (DifferentialDrive.set_velocity (1/5) 255 1 0).2 ∧
    0 < (DifferentialDrive.set_velocity (1/5) 255 1 0).1 := by
  have h := C8_kinematics_amended (1/5) 255 0 1 (by norm_num) (by norm_num)
  have h1 := h.1 rfl (by norm_num)
  have g := C8_kinematics_amended (1/5) 255 1 0 (by norm_num) (by norm_num)
  have h2 := g.2 rfl (by norm_num)
  have hstrict1 := h1.2.2 (by norm_num)
  have hstrict2 := h2.2.2 (by norm_num)
  exact ⟨hstrict1.1, hstrict1.2, h2.1, hstrict2⟩

/-- C9.  A `start()` call on an already-running auto controller returns
False and changes nothing at all: the PID state, the lane-lost counter, the
base speed, the robot mode and the running flag are exactly as before, so
`start()` after `start()` is equivalent to `start()` alone. -/
theorem C9_start_when_running (cameraOk : Bool) (s : AutoModeController.State)
    (h : s.running = true) :
    AutoModeController.start cameraOk s = (false, s) := by
  simp [AutoModeController.start, h]

/-- Witness for C9 at a concrete running controller. -/
theorem C9_start_witness :
    AutoModeController.start true sampleAuto = (false, sampleAuto) :=
  C9_start_when_running true sampleAuto rfl

/-- C10.  `reset_yaw()` zeroes exactly the yaw: roll, pitch, every gyro and
accelerometer calibration offset, the temperature baseline, the error
counter and the connected/running flags are all left unchanged. -/
theorem C10_reset_yaw_frame_effect (s : IMUSensorFusion.State) :
    (IMUSensorFusion.reset_yaw s).yaw = 0 ∧
    (IMUSensorFusion.reset_yaw s).roll = s.roll ∧
    (IMUSensorFusion.reset_yaw s).pitch = s.pitch ∧
    (IMUSensorFusion.reset_yaw s).gyro_x_offset = s.gyro_x_offset ∧
    (IMUSensorFusion.reset_yaw s).gyro_y_offset = s.gyro_y_offset ∧
    (IMUSensorFusion.reset_yaw s).gyro_z_offset = s.gyro_z_offset ∧
    (IMUSensorFusion.reset_yaw s).accel_x_offset = s.accel_x_offset ∧
    (IMUSensorFusion.reset_yaw s).accel_y_offset = s.accel_y_offset ∧
    (IMUSensorFusion.reset_yaw s).accel_z_offset = s.accel_z_offset ∧
    (IMUSensorFusion.reset_yaw s).temp_baseline = s.temp_baseline ∧
    (IMUSensorFusion.reset_yaw s).connected = s.connected ∧
    (IMUSensorFusion.reset_yaw s).running = s.running ∧
    (IMUSensorFusion.reset_yaw s).read_error_count = s.read_error_count :=
  ⟨rfl, rfl, rfl, rfl, rfl, rfl, rfl, rfl, rfl, rfl, rfl, rfl, rfl⟩
